import Mathlib

/-!
Shallow embedding of `src/main.py` — the launch orchestrator of a StudioGAN-style
training system.  The `main` function is modelled as a pure function from the
parsed command-line arguments, the base configuration file content, and the host
environment (accelerator count, current device index, RNG state, timestamp,
dataset-build outcome) to an event trace together with a final result.  Every
observable side effect of `main` (compatibility check, HDF5 cache build, cudnn
mode selection, seeding, folder preparation, dataset download, worker spawn,
worker join, inline worker invocation) appears as an event in the trace, in the
order the source performs it.  The modules `config`, `loader`, `utils.hdf5`,
`utils.log` and `utils.misc` imported by `main.py` are not part of the sources;
where their behaviour matters it is modelled from the specification, and each
such definition is marked `Modelled from the spec:` in its doc comment.
-/

namespace StudioGAN

/-- Command-line arguments produced by the `ArgumentParser` in `main`
(src/main.py lines 29-89).  Each field mirrors one `add_argument` destination,
with the source's default value.  `truncation_th` is a float in the source;
`main` never reads it beyond forwarding it inside the RUN section, so it is
carried as an opaque integer-scaled value. -/
structure Args where
  cfg_file : String := "./src/configs/CIFAR10/ContraGAN.yaml"
  data_dir : Option String := none
  save_dir : String := "./"
  ckpt_dir : Option String := none
  load_best : Bool := false
  distributed_data_parallel : Bool := false
  total_nodes : Nat := 1
  current_node : Nat := 0
  seed : Int := -1
  num_workers : Nat := 8
  synchronized_bn : Bool := false
  mixed_precision : Bool := false
  truncation_th : Int := -1
  batch_statistics : Bool := false
  standing_statistics : Bool := false
  standing_max_batch : Int := -1
  standing_step : Int := -1
  freezeG : Int := -1
  freezeD : Int := -1
  train : Bool := false
  load_train_hdf5 : Bool := false
  load_data_in_memory : Bool := false
  eval : Bool := false
  save_fake_images : Bool := false
  vis_fake_images : Bool := false
  k_nearest_neighbor : Bool := false
  interpolation : Bool := false
  frequency_analysis : Bool := false
  tsne_analysis : Bool := false
  intra_class_fid : Bool := false
  print_every : Nat := 100
  save_every : Nat := 2000
  eval_backbone : String := "Inception_V3"
  ref_dataset : String := "train"
deriving DecidableEq, Repr

/-- Modelled from the spec: the DATA section of the base configuration file
(the `config` module is not among the sources).  Per §3 it is a mapping holding
at least the dataset name and the configured image size; fields `main` never
reads are carried opaquely in `rest`. -/
structure DataSection where
  name : String
  img_size : Nat
  rest : List (String × String) := []
deriving DecidableEq, Repr

/-- Modelled from the spec: the OPTIMIZATION section of the configuration.
`main` writes `world_size` into it (src/main.py line 108); all other fields are
carried opaquely in `rest`. -/
structure OptimizationSection where
  world_size : Nat := 0
  rest : List (String × String) := []
deriving DecidableEq, Repr

/-- Modelled from the spec: the MISC section of the configuration, holding the
"no standard preprocessing" denylist of dataset names (`no_proc_data`, read at
src/main.py lines 113-114) and the base folder names (`base_folders`, read at
line 139). -/
structure MiscSection where
  no_proc_data : List String := []
  base_folders : List String := []
  rest : List (String × String) := []
deriving DecidableEq, Repr

/-- The PRE-processing section of the configuration; `main` stores the two
derived preprocessing parameters into it at src/main.py line 125. -/
structure PreSection where
  crop_long_edge : Bool := false
  resize_size : Option Nat := none
deriving DecidableEq, Repr

/-- The full run configuration: named sections RUN, DATA, OPTIMIZATION, MISC
and PRE (spec §3, src/main.py lines 106-125).  The RUN section after the
command-line overlay consists exactly of the argparse destinations, hence is
represented by `Args` itself. -/
structure Configuration where
  RUN : Args
  DATA : DataSection
  OPTIMIZATION : OptimizationSection
  MISC : MiscSection
  PRE : PreSection
deriving DecidableEq, Repr

/-- Modelled from the spec: the base configuration file content loaded by
`config.Configurations(args.cfg_file)` (the `config` module is not among the
sources) — the sections other than RUN, before any overlay. -/
structure BaseConfig where
  DATA : DataSection
  OPTIMIZATION : OptimizationSection := {}
  MISC : MiscSection := {}
  PRE : PreSection := {}
deriving DecidableEq, Repr

/-- The argument bundle handed to `loader.load_worker` (src/main.py lines
144 and 150-154): `(local_rank, cfgs, gpus_per_node, run_name, hdf5_path)`. -/
structure WorkerCall where
  local_rank : Nat
  cfgs : Configuration
  gpus_per_node : Nat
  run_name : String
  hdf5_path : Option String
deriving DecidableEq, Repr

/-- Modelled from the spec: the error raised by the compatibility check
(§4.1, §7) — a `ConfigError` naming the offending fields. -/
inductive ConfigError where
  | syncBnRequiresWorldSizeAboveOne
  | unknownEvalBackbone (backbone : String)
deriving DecidableEq, Repr

/-- One observable action of `main`, in source order.  `checkCompat` records
the configuration at the moment `check_compatability` is called (line 109);
`spawn` and `join` are the `Process(...).start()` and `.join()` calls of the
distributed branch (lines 143-148); `inlineWorker` is the direct
`loader.load_worker` call of the non-distributed branch (lines 150-154). -/
inductive Event where
  | printHelp
  | checkCompat (cfgs : Configuration)
  | makeHdf5 (data_name : String) (img_size : Nat) (crop_long_edge : Bool) (resize_size : Option Nat)
  | setCudnn (benchmark : Bool) (deterministic : Bool)
  | fixSeed (seed : Int)
  | printSingleGpu
  | setStartMethod
  | prepareFolder (folder_names : List String) (save_dir : String)
  | downloadData (data_name : String) (data_dir : Option String)
  | spawn (w : WorkerCall)
  | join (local_rank : Nat)
  | inlineWorker (w : WorkerCall)
deriving DecidableEq, Repr

/-- How the modelled `main` terminates: usage exit (lines 101-102), a
propagated `ConfigError` from the compatibility check (line 109), return after
joining all spawned workers (lines 147-148), or the outcome of the single
inline worker running in the caller's process (lines 150-154). -/
inductive MainResult where
  | usageExit (code : Nat)
  | configError (e : ConfigError)
  | joinedAll
  | inlineOutcome (ok : Bool)
deriving DecidableEq, Repr

/-- The host environment `main` reads: `torch.cuda.device_count()` and
`torch.cuda.current_device()` (line 104), the RNG state behind
`random.randint` (line 128), the timestamp used by `log.make_run_name`
(line 111), and the `(path, crop_long_edge, resize_size)` triple realized by a
successful `hdf5.make_hdf5` build (lines 116-122). -/
structure Env where
  gpus_per_node : Nat
  rank : Nat
  randState : Nat
  timestamp : String
  hdf5Result : String × Bool × Option Nat
deriving DecidableEq, Repr

/-- The operating-mode test of src/main.py lines 92-100: at least one of the
nine operating-mode flags is set. -/
def modeSelected (a : Args) : Bool :=
  a.train || a.eval || a.save_fake_images || a.vis_fake_images ||
    a.k_nearest_neighbor || a.interpolation || a.frequency_analysis ||
    a.tsne_analysis || a.intra_class_fid

/-- Python equality between a configuration section object and a string, as
used elementwise by the membership tests `cfgs.DATA in cfgs.MISC.no_proc_data`
(src/main.py lines 113-114).  In Python, `section == s` with `section` a
mapping object and `s` a string is always `False` (`__eq__` is
`NotImplemented` on both sides, so `==` falls back to identity). -/
def pyEqSectionStr (_d : DataSection) (_s : String) : Bool := false

/-- The Python membership test `cfgs.DATA in cfgs.MISC.no_proc_data` of
src/main.py lines 113-114: `x in lst` holds iff some element of `lst` compares
`==` to `x`.  Note the source tests the DATA section object itself, not
`cfgs.DATA.name`. -/
def dataInNoProcData (d : DataSection) (no_proc_data : List String) : Bool :=
  no_proc_data.any (pyEqSectionStr d)

/-- Modelled from the spec: `config.Configurations.check_compatability`
(called at src/main.py line 109; the `config` module is not among the
sources).  Per §4.1/§7/§8 the concretely specified rules are: synchronized
normalization requested together with `world_size == 1` is a `ConfigError`,
and the evaluation backbone must belong to the fixed enumerated set
`{SwAV, Inception_V3}` (src/main.py line 86).  Further cross-field rules are
mentioned only abstractly by the spec and are not modelled. -/
def check_compatability (c : Configuration) : Except ConfigError Unit :=
  if c.RUN.synchronized_bn = true ∧ c.OPTIMIZATION.world_size = 1 then
    Except.error ConfigError.syncBnRequiresWorldSizeAboveOne
  else if c.RUN.eval_backbone ≠ "SwAV" ∧ c.RUN.eval_backbone ≠ "Inception_V3" then
    Except.error (ConfigError.unknownEvalBackbone c.RUN.eval_backbone)
  else
    Except.ok ()

/-- Configuration reconciliation, src/main.py lines 106-108: load the base
configuration, overlay the command-line mapping `vars(args)` onto the RUN
section (`update_cfgs(run_cfgs, super="RUN")` — modelled from the spec: the
`config` module is not among the sources; per §4.1 the overlay rewrites the
RUN section from the flat mapping, which contains every argparse destination,
and alters no other section), then store
`world_size = gpus_per_node * total_nodes` into the OPTIMIZATION section. -/
def reconcile (args : Args) (base : BaseConfig) (gpus_per_node : Nat) : Configuration :=
  { RUN := args
    DATA := base.DATA
    OPTIMIZATION := { base.OPTIMIZATION with world_size := gpus_per_node * args.total_nodes }
    MISC := base.MISC
    PRE := base.PRE }

/-- Python `s.split(sep)` with an explicit single-character separator, on
character lists: splits at every occurrence of `sep`, keeping empty pieces,
and always returns at least one piece (`"".split(sep) == [""]`). -/
def splitCharList (sep : Char) : List Char → List (List Char)
  | [] => [[]]
  | c :: cs =>
    if c = sep then [] :: splitCharList sep cs
    else
      match splitCharList sep cs with
      | [] => [[c]]
      | h :: t => (c :: h) :: t

/-- Python `s.split(sep)` for a single-character separator string, as used by
`cfgs.RUN.cfg_file.split("/")` at src/main.py line 111. -/
def pySplit (sep : Char) (s : String) : List String :=
  (splitCharList sep s.data).map List.asString

/-- Fuel-driven engine of Python `str.replace` for a nonempty pattern:
left-to-right, non-overlapping replacement of every occurrence.  The fuel is
instantiated with the string length, which bounds the number of steps. -/
def replaceListAux (p r : List Char) : Nat → List Char → List Char
  | 0, s => s
  | _ + 1, [] => []
  | fuel + 1, c :: cs =>
    if p ≠ [] ∧ (c :: cs).take p.length = p then
      r ++ replaceListAux p r fuel ((c :: cs).drop p.length)
    else
      c :: replaceListAux p r fuel cs

/-- Python `s.replace(pattern, replacement)` for a nonempty pattern. -/
def pyReplace (s pattern replacement : String) : String :=
  (replaceListAux pattern.data replacement.data s.data.length s.data).asString

/-- The framework tag of src/main.py line 111:
`cfgs.RUN.cfg_file.split("/")[-1][:-5]` — last path component with the final
five characters (the `.yaml` extension) removed. -/
def frameworkTag (cfg_file : String) : String :=
  ((pySplit '/' cfg_file).getLastD "").dropRight 5

/-- The run-name template of src/main.py line 25. -/
def RUN_NAME_FORMAT : String := "{framework}-{phase}-{timestamp}"

/-- Modelled from the spec: `utils.log.make_run_name` (called at src/main.py
line 111; the `utils.log` module is not among the sources).  Per §4.4 it is
pure string formatting expanding the named placeholders of the template; the
timestamp it generates internally is supplied here as an argument. -/
def make_run_name (format framework phase timestamp : String) : String :=
  pyReplace (pyReplace (pyReplace format "{framework}" framework)
    "{phase}" phase) "{timestamp}" timestamp

/-- `random.randint a b` of the Python standard library (src/main.py line
128), whose contract is: return an integer `N` with `a ≤ N ≤ b`.  The hidden
RNG state is made an explicit argument. -/
def randint (a b : Int) (state : Nat) : Int :=
  a + (state : Int) % (b - a + 1)

/-- Line 113 of src/main.py: `crop_long_edge = False if cfgs.DATA in
cfgs.MISC.no_proc_data else True`. -/
def crop_long_edge_init (c : Configuration) : Bool :=
  if dataInNoProcData c.DATA c.MISC.no_proc_data then false else true

/-- Line 114 of src/main.py: `resize_size = None if cfgs.DATA in
cfgs.MISC.no_proc_data else cfgs.DATA.img_size`. -/
def resize_size_init (c : Configuration) : Option Nat :=
  if dataInNoProcData c.DATA c.MISC.no_proc_data then none else some c.DATA.img_size

/-- Lines 115-124 of src/main.py: the `hdf5_path` after the optional cache
build — the path returned by `make_hdf5` when `load_train_hdf5` is set, else
`None`. -/
def hdf5_path_of (c : Configuration) (env : Env) : Option String :=
  if c.RUN.load_train_hdf5 then some env.hdf5Result.1 else none

/-- Lines 115-124 of src/main.py: the effective `crop_long_edge` — the value
returned by `make_hdf5` when `load_train_hdf5` is set, else the line-113
value. -/
def crop_long_edge_eff (c : Configuration) (env : Env) : Bool :=
  if c.RUN.load_train_hdf5 then env.hdf5Result.2.1 else crop_long_edge_init c

/-- Lines 115-124 of src/main.py: the effective `resize_size` — the value
returned by `make_hdf5` when `load_train_hdf5` is set, else the line-114
value. -/
def resize_size_eff (c : Configuration) (env : Env) : Option Nat :=
  if c.RUN.load_train_hdf5 then env.hdf5Result.2.2 else resize_size_init c

/-- Lines 127-131 of src/main.py: `cudnn.benchmark` is set to `True` exactly
when the requested seed is the sentinel `-1`. -/
def cudnn_benchmark (c : Configuration) : Bool :=
  if c.RUN.seed = -1 then true else false

/-- Lines 127-131 of src/main.py: `cudnn.deterministic` is set to `True`
exactly when the requested seed is not the sentinel `-1`. -/
def cudnn_deterministic (c : Configuration) : Bool :=
  if c.RUN.seed = -1 then false else true

/-- Lines 127-132 of src/main.py: the seed actually installed — drawn by
`random.randint(1, 4096)` when the requested seed is `-1`, else the requested
seed verbatim. -/
def chosenSeed (c : Configuration) (env : Env) : Int :=
  if c.RUN.seed = -1 then randint 1 4096 env.randState else c.RUN.seed

/-- The configuration as the workers receive it: the line-109 configuration
with the PRE section overwritten by the effective preprocessing parameters
(line 125) and `RUN.seed` overwritten by the chosen seed (line 128, sentinel
case only — `chosenSeed` is the requested seed otherwise). -/
def cfgsFinal (c : Configuration) (env : Env) : Configuration :=
  { c with
    PRE := { crop_long_edge := crop_long_edge_eff c env
             resize_size := resize_size_eff c env }
    RUN := { c.RUN with seed := chosenSeed c env } }

/-- Line 111 of src/main.py: the run name. -/
def runNameOf (c : Configuration) (env : Env) : String :=
  make_run_name RUN_NAME_FORMAT (frameworkTag c.RUN.cfg_file) "train" env.timestamp

/-- The trace events of the optional HDF5 cache build (lines 115-122); the
build is invoked with the line-113/114 parameters. -/
def hdf5Events (c : Configuration) : List Event :=
  if c.RUN.load_train_hdf5 then
    [Event.makeHdf5 c.DATA.name c.DATA.img_size (crop_long_edge_init c) (resize_size_init c)]
  else
    []

/-- The trace events of lines 127-132: cudnn mode selection followed by
`misc.fix_seed(cfgs.RUN.seed)`. -/
def seedEvents (c : Configuration) (env : Env) : List Event :=
  [Event.setCudnn (cudnn_benchmark c) (cudnn_deterministic c),
   Event.fixSeed (chosenSeed c env)]

/-- Lines 134-135 of src/main.py: the single-GPU notice. -/
def singleGpuEvents (c : Configuration) : List Event :=
  if c.OPTIMIZATION.world_size = 1 then [Event.printSingleGpu] else []

/-- The branch condition of line 137:
`cfgs.RUN.distributed_data_parallel and cfgs.OPTIMIZATION.world_size > 1`. -/
def ddpMode (c : Configuration) : Bool :=
  c.RUN.distributed_data_parallel && decide (1 < c.OPTIMIZATION.world_size)

/-- The worker calls of the distributed branch (lines 143-146): one
`load_worker(local_rank, cfgs, gpus_per_node, run_name, hdf5_path)` bundle per
`local_rank in range(gpus_per_node)`, all sharing the finalized configuration,
run name and cache path. -/
def workerCallsOf (c : Configuration) (env : Env) : List WorkerCall :=
  (List.range env.gpus_per_node).map fun lr =>
    { local_rank := lr
      cfgs := cfgsFinal c env
      gpus_per_node := env.gpus_per_node
      run_name := runNameOf c env
      hdf5_path := hdf5_path_of c env }

/-- Lines 138-140 of src/main.py: start-method selection, output-folder
preparation and dataset download — the shared-filesystem preconditions of the
distributed branch, performed once before any spawn. -/
def fsPreEvents (c : Configuration) : List Event :=
  [Event.setStartMethod,
   Event.prepareFolder c.MISC.base_folders c.RUN.save_dir,
   Event.downloadData c.DATA.name c.RUN.data_dir]

/-- Lines 143-146 of src/main.py: the `Process(...).start()` calls, one per
local rank, in rank order. -/
def spawnEvents (c : Configuration) (env : Env) : List Event :=
  (workerCallsOf c env).map Event.spawn

/-- Lines 147-148 of src/main.py: the `p.join()` calls, one per spawned
process, in rank order. -/
def joinEvents (env : Env) : List Event :=
  (List.range env.gpus_per_node).map Event.join

/-- The trace of the distributed branch (lines 138-148): the filesystem
preconditions, then all spawns, then all joins. -/
def ddpEvents (c : Configuration) (env : Env) : List Event :=
  fsPreEvents c ++ spawnEvents c env ++ joinEvents env

/-- The single worker call of the non-distributed branch (lines 150-154),
with `local_rank = rank` from `torch.cuda.current_device()`. -/
def inlineCall (c : Configuration) (env : Env) : WorkerCall :=
  { local_rank := env.rank
    cfgs := cfgsFinal c env
    gpus_per_node := env.gpus_per_node
    run_name := runNameOf c env
    hdf5_path := hdf5_path_of c env }

/-- The events common to every run that passes the compatibility check, in
source order: the check itself (line 109), the optional cache build (lines
115-122), cudnn/seed installation (lines 127-132), and the optional
single-GPU notice (lines 134-135). -/
def successHead (c : Configuration) (env : Env) : List Event :=
  Event.checkCompat c :: (hdf5Events c ++ seedEvents c env ++ singleGpuEvents c)

/-- The launch orchestrator `main` of src/main.py (lines 28-154) as a pure
function.  `workerOutcome lr` is the success/failure outcome of the opaque
worker body `loader.load_worker` when run at local rank `lr`; in the
distributed branch `main` joins every child without inspecting its exit
status and returns, while in the inline branch the worker runs in the
caller's process, so its outcome is the outcome of `main` itself. -/
def mainRun (args : Args) (base : BaseConfig) (env : Env)
    (workerOutcome : Nat → Bool) : List Event × MainResult :=
  if modeSelected args = false then
    ([Event.printHelp], MainResult.usageExit 1)
  else
    let c0 := reconcile args base env.gpus_per_node
    match check_compatability c0 with
    | Except.error e => ([Event.checkCompat c0], MainResult.configError e)
    | Except.ok _ =>
      if ddpMode c0 then
        (successHead c0 env ++ ddpEvents c0 env, MainResult.joinedAll)
      else
        (successHead c0 env ++ [Event.inlineWorker (inlineCall c0 env)],
         MainResult.inlineOutcome (workerOutcome env.rank))

/-- The worker bundle of a spawn event, if any. -/
def spawnOf : Event → Option WorkerCall
  | Event.spawn w => some w
  | _ => none

/-- The worker bundle of an inline-worker event, if any. -/
def inlineOf : Event → Option WorkerCall
  | Event.inlineWorker w => some w
  | _ => none

/-- The configuration snapshot of a compatibility-check event, if any. -/
def checkOf : Event → Option Configuration
  | Event.checkCompat c => some c
  | _ => none

/-- The worker bundles passed to `Process(target=load_worker, ...)` in a
trace. -/
def spawnedCalls (t : List Event) : List WorkerCall :=
  t.filterMap spawnOf

/-- The worker bundles passed to the direct `load_worker` call in a trace. -/
def inlineCalls (t : List Event) : List WorkerCall :=
  t.filterMap inlineOf

/-- Every worker invocation of a trace, spawned or inline. -/
def allWorkerCalls (t : List Event) : List WorkerCall :=
  spawnedCalls t ++ inlineCalls t

/-- The configuration snapshots at the compatibility-check call sites of a
trace. -/
def checkSnapshots (t : List Event) : List Configuration :=
  t.filterMap checkOf

/-- Recognizer for compatibility-check events. -/
def isCheckEvt : Event → Bool
  | Event.checkCompat _ => true
  | _ => false

/-- Recognizer for HDF5 cache-build events. -/
def isHdf5Evt : Event → Bool
  | Event.makeHdf5 _ _ _ _ => true
  | _ => false

/-- Recognizer for dataset preparation and shared-filesystem precondition
events: the cache build, output-directory creation, and the dataset
availability check. -/
def isPrepEvt : Event → Bool
  | Event.makeHdf5 _ _ _ _ => true
  | Event.prepareFolder _ _ => true
  | Event.downloadData _ _ => true
  | _ => false

/-- Recognizer for worker-process spawn events. -/
def isSpawnEvt : Event → Bool
  | Event.spawn _ => true
  | _ => false

/-- Recognizer for worker-process join events. -/
def isJoinEvt : Event → Bool
  | Event.join _ => true
  | _ => false

/-- Recognizer for inline worker invocations. -/
def isInlineEvt : Event → Bool
  | Event.inlineWorker _ => true
  | _ => false

/-! ## Trace-shape lemmas -/

/-- In the usage-error branch (lines 92-102), `mainRun` emits only the help
text and exits with code 1. -/
theorem mainRun_usage (args : Args) (base : BaseConfig) (env : Env)
    (f : Nat → Bool) (h : modeSelected args = false) :
    mainRun args base env f = ([Event.printHelp], MainResult.usageExit 1) := by
  simp [mainRun, h]

/-- When the compatibility check fails, `mainRun` stops right there with the
`ConfigError`. -/
theorem mainRun_error (args : Args) (base : BaseConfig) (env : Env)
    (f : Nat → Bool) (e : ConfigError) (hm : modeSelected args = true)
    (he : check_compatability (reconcile args base env.gpus_per_node) = Except.error e) :
    mainRun args base env f =
      ([Event.checkCompat (reconcile args base env.gpus_per_node)],
       MainResult.configError e) := by
  simp [mainRun, hm, he]

/-- The closed form of the distributed branch of `mainRun`. -/
theorem mainRun_ddp (args : Args) (base : BaseConfig) (env : Env)
    (f : Nat → Bool) (hm : modeSelected args = true)
    (hok : check_compatability (reconcile args base env.gpus_per_node) = Except.ok ())
    (hd : ddpMode (reconcile args base env.gpus_per_node) = true) :
    mainRun args base env f =
      (successHead (reconcile args base env.gpus_per_node) env ++
        ddpEvents (reconcile args base env.gpus_per_node) env,
       MainResult.joinedAll) := by
  simp [mainRun, hm, hok, hd]

/-- The closed form of the inline branch of `mainRun`. -/
theorem mainRun_inline (args : Args) (base : BaseConfig) (env : Env)
    (f : Nat → Bool) (hm : modeSelected args = true)
    (hok : check_compatability (reconcile args base env.gpus_per_node) = Except.ok ())
    (hd : ddpMode (reconcile args base env.gpus_per_node) = false) :
    mainRun args base env f =
      (successHead (reconcile args base env.gpus_per_node) env ++
        [Event.inlineWorker (inlineCall (reconcile args base env.gpus_per_node) env)],
       MainResult.inlineOutcome (f env.rank)) := by
  simp [mainRun, hm, hok, hd]

/-! ## Segment-membership lemmas -/

/-- Any element of `hdf5Events` is the cache-build event. -/
theorem mem_hdf5Events {c : Configuration} {e : Event} (h : e ∈ hdf5Events c) :
    e = Event.makeHdf5 c.DATA.name c.DATA.img_size (crop_long_edge_init c)
      (resize_size_init c) := by
  unfold hdf5Events at h
  split at h
  · simpa using h
  · simp at h

/-- Any element of `seedEvents` is the cudnn event or the fix-seed event. -/
theorem mem_seedEvents {c : Configuration} {env : Env} {e : Event}
    (h : e ∈ seedEvents c env) :
    e = Event.setCudnn (cudnn_benchmark c) (cudnn_deterministic c) ∨
      e = Event.fixSeed (chosenSeed c env) := by
  simpa [seedEvents] using h

/-- Any element of `singleGpuEvents` is the single-GPU notice. -/
theorem mem_singleGpuEvents {c : Configuration} {e : Event}
    (h : e ∈ singleGpuEvents c) : e = Event.printSingleGpu := by
  unfold singleGpuEvents at h
  split at h
  · simpa using h
  · simp at h

/-- Any element of `fsPreEvents` is one of the three precondition events. -/
theorem mem_fsPreEvents {c : Configuration} {e : Event} (h : e ∈ fsPreEvents c) :
    e = Event.setStartMethod ∨
      e = Event.prepareFolder c.MISC.base_folders c.RUN.save_dir ∨
      e = Event.downloadData c.DATA.name c.RUN.data_dir := by
  simpa [fsPreEvents] using h

/-- Any element of `spawnEvents` is a spawn event. -/
theorem mem_spawnEvents {c : Configuration} {env : Env} {e : Event}
    (h : e ∈ spawnEvents c env) : ∃ w, e = Event.spawn w := by
  simp only [spawnEvents, List.mem_map] at h
  obtain ⟨w, _, rfl⟩ := h
  exact ⟨w, rfl⟩

/-- Any element of `joinEvents` is a join event. -/
theorem mem_joinEvents {env : Env} {e : Event} (h : e ∈ joinEvents env) :
    ∃ r, e = Event.join r := by
  simp only [joinEvents, List.mem_map] at h
  obtain ⟨r, _, rfl⟩ := h
  exact ⟨r, rfl⟩

/-- `successHead` contains no spawn, join or inline-worker event. -/
theorem flags_successHead (c : Configuration) (env : Env) :
    ∀ e ∈ successHead c env,
      isSpawnEvt e = false ∧ isJoinEvt e = false := by
  intro e he
  simp only [successHead, List.mem_cons, List.mem_append] at he
  rcases he with rfl | (h | h) | h
  · exact ⟨rfl, rfl⟩
  · rw [mem_hdf5Events h]; exact ⟨rfl, rfl⟩
  · rcases mem_seedEvents h with rfl | rfl <;> exact ⟨rfl, rfl⟩
  · rw [mem_singleGpuEvents h]; exact ⟨rfl, rfl⟩

/-- The part of `successHead` after the compatibility check contains no
compatibility-check event. -/
theorem noCheck_tail (c : Configuration) (env : Env) :
    ∀ e ∈ hdf5Events c ++ seedEvents c env ++ singleGpuEvents c,
      isCheckEvt e = false := by
  intro e he
  simp only [List.mem_append] at he
  rcases he with (h | h) | h
  · rw [mem_hdf5Events h]; rfl
  · rcases mem_seedEvents h with rfl | rfl <;> rfl
  · rw [mem_singleGpuEvents h]; rfl

/-- `fsPreEvents` contains no spawn, join or compatibility-check event. -/
theorem flags_fsPreEvents (c : Configuration) :
    ∀ e ∈ fsPreEvents c,
      isSpawnEvt e = false ∧ isJoinEvt e = false ∧ isCheckEvt e = false := by
  intro e he
  rcases mem_fsPreEvents he with rfl | rfl | rfl <;> exact ⟨rfl, rfl, rfl⟩

/-- `spawnEvents` contains no join, preparation or compatibility-check
event. -/
theorem flags_spawnEvents (c : Configuration) (env : Env) :
    ∀ e ∈ spawnEvents c env,
      isJoinEvt e = false ∧ isPrepEvt e = false ∧ isCheckEvt e = false := by
  intro e he
  obtain ⟨w, rfl⟩ := mem_spawnEvents he
  exact ⟨rfl, rfl, rfl⟩

/-- `joinEvents` contains no spawn, preparation or compatibility-check
event. -/
theorem flags_joinEvents (env : Env) :
    ∀ e ∈ joinEvents env,
      isSpawnEvt e = false ∧ isPrepEvt e = false ∧ isCheckEvt e = false := by
  intro e he
  obtain ⟨r, rfl⟩ := mem_joinEvents he
  exact ⟨rfl, rfl, rfl⟩

/-- `ddpEvents` contains no compatibility-check event. -/
theorem noCheck_ddpEvents (c : Configuration) (env : Env) :
    ∀ e ∈ ddpEvents c env, isCheckEvt e = false := by
  intro e he
  simp only [ddpEvents, List.mem_append] at he
  rcases he with (h | h) | h
  · exact (flags_fsPreEvents c e h).2.2
  · exact (flags_spawnEvents c env e h).2.2
  · exact (flags_joinEvents env e h).2.2

/-! ## filterMap computation lemmas -/

/-- A mapped list whose images are all dropped by a `filterMap` filters to
nothing. -/
theorem filterMap_map_none {α β γ : Type _} (g : α → β) (f : β → Option γ)
    (h : ∀ a, f (g a) = none) (l : List α) : (l.map g).filterMap f = [] := by
  induction l with
  | nil => rfl
  | cons a l ih => simp [List.filterMap_cons, h a, ih]

/-- A mapped list whose images are all kept by a `filterMap` filters back to
the original list. -/
theorem filterMap_map_id {α β : Type _} (g : α → β) (f : β → Option α)
    (h : ∀ a, f (g a) = some a) (l : List α) : (l.map g).filterMap f = l := by
  induction l with
  | nil => rfl
  | cons a l ih => simp [List.filterMap_cons, h a, ih]

/-- `spawnedCalls` of the pre-branch events is empty. -/
theorem spawnedCalls_successHead (c : Configuration) (env : Env) :
    spawnedCalls (successHead c env) = [] := by
  unfold spawnedCalls successHead hdf5Events seedEvents singleGpuEvents
  split <;> split <;> rfl

/-- `spawnedCalls` of the distributed branch is exactly the worker bundles. -/
theorem spawnedCalls_ddpEvents (c : Configuration) (env : Env) :
    spawnedCalls (ddpEvents c env) = workerCallsOf c env := by
  unfold spawnedCalls ddpEvents fsPreEvents spawnEvents joinEvents
  rw [List.filterMap_append, List.filterMap_append]
  rw [filterMap_map_id Event.spawn spawnOf (fun _ => rfl)]
  rw [filterMap_map_none Event.join spawnOf (fun _ => rfl)]
  simp [spawnOf]

/-- `inlineCalls` of the pre-branch events is empty. -/
theorem inlineCalls_successHead (c : Configuration) (env : Env) :
    inlineCalls (successHead c env) = [] := by
  unfold inlineCalls successHead hdf5Events seedEvents singleGpuEvents
  split <;> split <;> rfl

/-- `inlineCalls` of the distributed branch is empty. -/
theorem inlineCalls_ddpEvents (c : Configuration) (env : Env) :
    inlineCalls (ddpEvents c env) = [] := by
  unfold inlineCalls ddpEvents fsPreEvents spawnEvents joinEvents
  rw [List.filterMap_append, List.filterMap_append]
  rw [filterMap_map_none Event.spawn inlineOf (fun _ => rfl)]
  rw [filterMap_map_none Event.join inlineOf (fun _ => rfl)]
  simp [inlineOf]

/-- `checkSnapshots` of the pre-branch events is the single line-109
snapshot. -/
theorem checkSnapshots_successHead (c : Configuration) (env : Env) :
    checkSnapshots (successHead c env) = [c] := by
  unfold checkSnapshots successHead hdf5Events seedEvents singleGpuEvents
  split <;> split <;> rfl

/-- `checkSnapshots` of the distributed branch is empty. -/
theorem checkSnapshots_ddpEvents (c : Configuration) (env : Env) :
    checkSnapshots (ddpEvents c env) = [] := by
  unfold checkSnapshots ddpEvents fsPreEvents spawnEvents joinEvents
  rw [List.filterMap_append, List.filterMap_append]
  rw [filterMap_map_none Event.spawn checkOf (fun _ => rfl)]
  rw [filterMap_map_none Event.join checkOf (fun _ => rfl)]
  simp [checkOf]

/-! ## Positional ordering helper -/

/-- Positional ordering from a list split: when no event of the suffix
satisfies `p` and no event of the prefix satisfies `q`, every `p`-event's
index lies strictly below every `q`-event's index. -/
theorem lt_of_split (t a b : List Event) (p q : Event → Bool) (ht : t = a ++ b)
    (hb : ∀ e ∈ b, p e = false) (ha : ∀ e ∈ a, q e = false) :
    ∀ (i j : Nat) (ei ej : Event), t[i]? = some ei → p ei = true →
      t[j]? = some ej → q ej = true → i < j := by
  subst ht
  intro i j ei ej hi hpi hj hqj
  have hia : i < a.length := by
    by_contra hge
    push_neg at hge
    rw [List.getElem?_append_right hge] at hi
    have hmem : ei ∈ b := List.getElem?_mem hi
    rw [hb ei hmem] at hpi
    exact Bool.false_ne_true hpi
  have hja : a.length ≤ j := by
    by_contra hlt
    push_neg at hlt
    rw [List.getElem?_append, if_pos hlt] at hj
    have hmem : ej ∈ a := List.getElem?_mem hj
    rw [ha ej hmem] at hqj
    exact Bool.false_ne_true hqj
  omega

/-! ## Branch enumeration -/

/-- Every run of `mainRun` lands in exactly one of the four branches of the
source: usage exit, configuration error, distributed fan-out, or inline
execution. -/
theorem mainRun_cases (args : Args) (base : BaseConfig) (env : Env)
    (f : Nat → Bool) :
    mainRun args base env f = ([Event.printHelp], MainResult.usageExit 1) ∨
    (∃ e, mainRun args base env f =
      ([Event.checkCompat (reconcile args base env.gpus_per_node)],
       MainResult.configError e)) ∨
    mainRun args base env f =
      (successHead (reconcile args base env.gpus_per_node) env ++
        ddpEvents (reconcile args base env.gpus_per_node) env,
       MainResult.joinedAll) ∨
    mainRun args base env f =
      (successHead (reconcile args base env.gpus_per_node) env ++
        [Event.inlineWorker (inlineCall (reconcile args base env.gpus_per_node) env)],
       MainResult.inlineOutcome (f env.rank)) := by
  by_cases hm : modeSelected args = true
  · rcases he : check_compatability (reconcile args base env.gpus_per_node) with e | u
    · exact Or.inr (Or.inl ⟨e, mainRun_error args base env f e hm he⟩)
    · cases u
      by_cases hd : ddpMode (reconcile args base env.gpus_per_node) = true
      · exact Or.inr (Or.inr (Or.inl (mainRun_ddp args base env f hm he hd)))
      · refine Or.inr (Or.inr (Or.inr (mainRun_inline args base env f hm he ?_)))
        simpa using hd
  · exact Or.inl (mainRun_usage args base env f (by simpa using hm))

/-- The compatibility-check snapshots of any run: none, or exactly the
reconciled configuration of line 109. -/
theorem checkSnapshots_mainRun (args : Args) (base : BaseConfig) (env : Env)
    (f : Nat → Bool) :
    checkSnapshots (mainRun args base env f).1 = [] ∨
    checkSnapshots (mainRun args base env f).1 =
      [reconcile args base env.gpus_per_node] := by
  have hsd := checkSnapshots_successHead (reconcile args base env.gpus_per_node) env
  have hdd := checkSnapshots_ddpEvents (reconcile args base env.gpus_per_node) env
  rcases mainRun_cases args base env f with h | ⟨e, h⟩ | h | h <;> rw [h]
  · exact Or.inl rfl
  · exact Or.inr rfl
  · refine Or.inr ?_
    unfold checkSnapshots at hsd hdd ⊢
    rw [List.filterMap_append, hsd, hdd]
    rfl
  · refine Or.inr ?_
    unfold checkSnapshots at hsd ⊢
    rw [List.filterMap_append, hsd]
    rfl

/-- The worker invocations of any run: none, the distributed fan-out bundles,
or the single inline bundle. -/
theorem allWorkerCalls_mainRun (args : Args) (base : BaseConfig) (env : Env)
    (f : Nat → Bool) :
    allWorkerCalls (mainRun args base env f).1 = [] ∨
    allWorkerCalls (mainRun args base env f).1 =
      workerCallsOf (reconcile args base env.gpus_per_node) env ∨
    allWorkerCalls (mainRun args base env f).1 =
      [inlineCall (reconcile args base env.gpus_per_node) env] := by
  have hs1 := spawnedCalls_successHead (reconcile args base env.gpus_per_node) env
  have hs2 := spawnedCalls_ddpEvents (reconcile args base env.gpus_per_node) env
  have hi1 := inlineCalls_successHead (reconcile args base env.gpus_per_node) env
  have hi2 := inlineCalls_ddpEvents (reconcile args base env.gpus_per_node) env
  rcases mainRun_cases args base env f with h | ⟨e, h⟩ | h | h <;> rw [h]
  · exact Or.inl rfl
  · exact Or.inl rfl
  · refine Or.inr (Or.inl ?_)
    unfold allWorkerCalls spawnedCalls inlineCalls
    unfold spawnedCalls at hs1 hs2
    unfold inlineCalls at hi1 hi2
    rw [List.filterMap_append, List.filterMap_append, hs1, hs2, hi1, hi2]
    simp
  · refine Or.inr (Or.inr ?_)
    unfold allWorkerCalls spawnedCalls inlineCalls
    unfold spawnedCalls at hs1
    unfold inlineCalls at hi1
    rw [List.filterMap_append, List.filterMap_append, hs1, hi1]
    rfl

/-- Field characterization of a distributed worker bundle. -/
theorem mem_workerCallsOf {c : Configuration} {env : Env} {w : WorkerCall}
    (h : w ∈ workerCallsOf c env) :
    w.cfgs = cfgsFinal c env ∧ w.gpus_per_node = env.gpus_per_node ∧
    w.run_name = runNameOf c env ∧ w.hdf5_path = hdf5_path_of c env ∧
    w.local_rank < env.gpus_per_node := by
  simp only [workerCallsOf, List.mem_map, List.mem_range] at h
  obtain ⟨lr, hlr, rfl⟩ := h
  exact ⟨rfl, rfl, rfl, rfl, hlr⟩

/-- The later PRE/seed writes leave the OPTIMIZATION section untouched. -/
theorem cfgsFinal_OPTIMIZATION (c : Configuration) (env : Env) :
    (cfgsFinal c env).OPTIMIZATION = c.OPTIMIZATION := rfl

/-- The later PRE/seed writes leave the DATA section untouched. -/
theorem cfgsFinal_DATA (c : Configuration) (env : Env) :
    (cfgsFinal c env).DATA = c.DATA := rfl

/-- The later PRE/seed writes leave the MISC section untouched. -/
theorem cfgsFinal_MISC (c : Configuration) (env : Env) :
    (cfgsFinal c env).MISC = c.MISC := rfl

/-- The only RUN field the later writes touch is the seed. -/
theorem cfgsFinal_RUN (c : Configuration) (env : Env) :
    (cfgsFinal c env).RUN = { c.RUN with seed := chosenSeed c env } := rfl

/-! ## Concrete sample inputs -/

/-- A base configuration matching the CIFAR10 example config file: the dataset
name is listed in the no-standard-preprocessing denylist. -/
def baseW : BaseConfig :=
  { DATA := { name := "CIFAR10", img_size := 32 }
    MISC := { no_proc_data := ["CIFAR10", "CIFAR100", "Tiny_ImageNet"]
              base_folders := ["checkpoints", "figures", "logs", "samples"] } }

/-- Arguments of a plain single-process training run with the sentinel
seed. -/
def argsT : Args := { train := true }

/-- Arguments of a distributed training run with an explicit seed. -/
def argsD : Args :=
  { train := true, distributed_data_parallel := true, seed := 42 }

/-- An environment with two accelerators on the node. -/
def envD : Env :=
  { gpus_per_node := 2, rank := 0, randState := 41, timestamp := "20261012"
    hdf5Result := ("cache.hdf5", true, some 32) }

/-- An environment with a single accelerator on the node. -/
def envT : Env :=
  { gpus_per_node := 1, rank := 0, randState := 41, timestamp := "20261012"
    hdf5Result := ("cache.hdf5", true, some 32) }

/-- Arguments of a training run requesting synchronized batch
normalization. -/
def argsSync : Args := { train := true, synchronized_bn := true }

/-! ## Auxiliary facts -/

/-- The seed drawn for the sentinel request lies in the documented inclusive
range `[1, 4096]`. -/
theorem randint_range (state : Nat) :
    1 ≤ randint 1 4096 state ∧ randint 1 4096 state ≤ 4096 := by
  unfold randint
  omega

/-- The cudnn selection event is always part of the post-check trace head. -/
theorem setCudnn_mem_successHead (c : Configuration) (env : Env) :
    Event.setCudnn (cudnn_benchmark c) (cudnn_deterministic c) ∈ successHead c env := by
  simp [successHead, seedEvents]

/-- The seed-installation event is always part of the post-check trace
head. -/
theorem fixSeed_mem_successHead (c : Configuration) (env : Env) :
    Event.fixSeed (chosenSeed c env) ∈ successHead c env := by
  simp [successHead, seedEvents]

/-- Once the compatibility check passes, the trace starts with the common
head. -/
theorem mainRun_trace_ok (args : Args) (base : BaseConfig) (env : Env)
    (f : Nat → Bool) (hm : modeSelected args = true)
    (hok : check_compatability (reconcile args base env.gpus_per_node) = Except.ok ()) :
    ∃ rest, (mainRun args base env f).1 =
      successHead (reconcile args base env.gpus_per_node) env ++ rest := by
  by_cases hd : ddpMode (reconcile args base env.gpus_per_node) = true
  · exact ⟨_, by rw [mainRun_ddp args base env f hm hok hd]⟩
  · exact ⟨_, by rw [mainRun_inline args base env f hm hok (by simpa using hd)]⟩

/-! ## Claims -/

/-- C1: the source derives the preprocessing parameters from the membership
test `cfgs.DATA in cfgs.MISC.no_proc_data` (src/main.py lines 113-114), which
compares the DATA section object — not the dataset name — with the denylisted
name strings and therefore never succeeds.  At a configuration whose dataset
name `CIFAR10` is listed in the denylist, the code still selects
`crop_long_edge = true` and `resize_size = img_size`, and that is what every
worker observes in its PRE section; the claim requires `false` and no resize
target there. -/
theorem C1_denylisted_name_still_preprocessed :
    (reconcile argsT baseW 1).DATA.name ∈
      (reconcile argsT baseW 1).MISC.no_proc_data ∧
    dataInNoProcData (reconcile argsT baseW 1).DATA
      (reconcile argsT baseW 1).MISC.no_proc_data = false ∧
    crop_long_edge_init (reconcile argsT baseW 1) = true ∧
    resize_size_init (reconcile argsT baseW 1) = some 32 ∧
    (allWorkerCalls (mainRun argsT baseW envT (fun _ => true)).1).map
        (fun w => (w.cfgs.PRE.crop_long_edge, w.cfgs.PRE.resize_size)) =
      [(true, some 32)] := by
  refine ⟨by decide, rfl, rfl, rfl, by decide⟩

/-- C2 counterexample: in the run `mainRun argsT baseW envT`, which passes the
compatibility check, the configuration handed to the worker differs from the
configuration snapshot taken at the check (the PRE fields and the sentinel
seed were overwritten at src/main.py lines 125 and 128), so the claim that no
field changes after the check is false. -/
theorem C2_config_mutated_after_check :
    ¬ ∀ c ∈ checkSnapshots (mainRun argsT baseW envT (fun _ => true)).1,
      ∀ w ∈ allWorkerCalls (mainRun argsT baseW envT (fun _ => true)).1,
        w.cfgs = c := by
  decide

/-- C2 (amended): between the successful compatibility check and any worker
invocation, the only configuration fields that change are the PRE section
(overwritten with the dataset-preparation outputs at line 125) and `RUN.seed`
(overwritten at line 128, and only when the sentinel `-1` was requested);
the DATA, OPTIMIZATION and MISC sections and every other RUN field are
unchanged. -/
theorem C2_post_check_mutation_confined (args : Args) (base : BaseConfig)
    (env : Env) (f : Nat → Bool) :
    ∀ c ∈ checkSnapshots (mainRun args base env f).1,
    ∀ w ∈ allWorkerCalls (mainRun args base env f).1,
      w.cfgs.DATA = c.DATA ∧ w.cfgs.OPTIMIZATION = c.OPTIMIZATION ∧
      w.cfgs.MISC = c.MISC ∧
      w.cfgs.RUN = { c.RUN with seed := w.cfgs.RUN.seed } ∧
      (c.RUN.seed ≠ -1 → w.cfgs.RUN = c.RUN) := by
  intro c hc w hw
  rcases checkSnapshots_mainRun args base env f with h | h <;> rw [h] at hc
  · simp at hc
  · simp at hc
    subst hc
    have hRun :
        ∀ hcfg : w.cfgs = cfgsFinal (reconcile args base env.gpus_per_node) env,
          (reconcile args base env.gpus_per_node).RUN.seed ≠ -1 →
          w.cfgs.RUN = (reconcile args base env.gpus_per_node).RUN := by
      intro hcfg hne
      rw [hcfg, cfgsFinal_RUN]
      unfold chosenSeed
      rw [if_neg hne]
    rcases allWorkerCalls_mainRun args base env f with h2 | h2 | h2 <;> rw [h2] at hw
    · simp at hw
    · have hcfg := (mem_workerCallsOf hw).1
      refine ⟨by rw [hcfg]; rfl, by rw [hcfg]; rfl, by rw [hcfg]; rfl,
        by rw [hcfg]; rfl, hRun hcfg⟩
    · simp at hw
      subst hw
      exact ⟨rfl, rfl, rfl, rfl, hRun rfl⟩

/-- Witness for the amended C2 at a concrete single-accelerator run with the
sentinel seed. -/
theorem C2_post_check_mutation_confined_witness :
    (inlineCall (reconcile argsT baseW envT.gpus_per_node) envT).cfgs.DATA =
      (reconcile argsT baseW envT.gpus_per_node).DATA ∧
    (inlineCall (reconcile argsT baseW envT.gpus_per_node) envT).cfgs.OPTIMIZATION =
      (reconcile argsT baseW envT.gpus_per_node).OPTIMIZATION ∧
    (inlineCall (reconcile argsT baseW envT.gpus_per_node) envT).cfgs.MISC =
      (reconcile argsT baseW envT.gpus_per_node).MISC ∧
    (inlineCall (reconcile argsT baseW envT.gpus_per_node) envT).cfgs.RUN =
      { (reconcile argsT baseW envT.gpus_per_node).RUN with
        seed := (inlineCall (reconcile argsT baseW envT.gpus_per_node) envT).cfgs.RUN.seed } ∧
    ((reconcile argsT baseW envT.gpus_per_node).RUN.seed ≠ -1 →
      (inlineCall (reconcile argsT baseW envT.gpus_per_node) envT).cfgs.RUN =
        (reconcile argsT baseW envT.gpus_per_node).RUN) :=
  C2_post_check_mutation_confined argsT baseW envT (fun _ => true)
    (reconcile argsT baseW envT.gpus_per_node) (by decide)
    (inlineCall (reconcile argsT baseW envT.gpus_per_node) envT) (by decide)

/-- C5: when the requested seed is the sentinel `-1`, benchmark mode is
selected (`cudnn.benchmark = True`, `cudnn.deterministic = False`) and the
installed seed lies in the inclusive range `[1, 4096]`; otherwise the
requested seed is installed verbatim and deterministic mode is selected; in
both cases the chosen seed is applied to the process-local random sources via
`fix_seed`. -/
theorem C5_seed_policy (args : Args) (base : BaseConfig) (env : Env)
    (f : Nat → Bool) (hm : modeSelected args = true)
    (hok : check_compatability (reconcile args base env.gpus_per_node) = Except.ok ()) :
    (args.seed = -1 →
      Event.setCudnn true false ∈ (mainRun args base env f).1 ∧
      ∃ s, Event.fixSeed s ∈ (mainRun args base env f).1 ∧ 1 ≤ s ∧ s ≤ 4096) ∧
    (args.seed ≠ -1 →
      Event.setCudnn false true ∈ (mainRun args base env f).1 ∧
      Event.fixSeed args.seed ∈ (mainRun args base env f).1) := by
  obtain ⟨rest, htr⟩ := mainRun_trace_ok args base env f hm hok
  rw [htr]
  constructor
  · intro hseed
    have hseed2 : (reconcile args base env.gpus_per_node).RUN.seed = -1 := hseed
    have hb : cudnn_benchmark (reconcile args base env.gpus_per_node) = true := by
      unfold cudnn_benchmark
      rw [if_pos hseed2]
    have hd : cudnn_deterministic (reconcile args base env.gpus_per_node) = false := by
      unfold cudnn_deterministic
      rw [if_pos hseed2]
    have hs : chosenSeed (reconcile args base env.gpus_per_node) env =
        randint 1 4096 env.randState := by
      unfold chosenSeed
      rw [if_pos hseed2]
    refine ⟨?_, chosenSeed (reconcile args base env.gpus_per_node) env, ?_, ?_, ?_⟩
    · have := setCudnn_mem_successHead (reconcile args base env.gpus_per_node) env
      rw [hb, hd] at this
      exact List.mem_append_left rest this
    · exact List.mem_append_left rest
        (fixSeed_mem_successHead (reconcile args base env.gpus_per_node) env)
    · rw [hs]; exact (randint_range env.randState).1
    · rw [hs]; exact (randint_range env.randState).2
  · intro hseed
    have hseed2 : (reconcile args base env.gpus_per_node).RUN.seed ≠ -1 := hseed
    have hb : cudnn_benchmark (reconcile args base env.gpus_per_node) = false := by
      unfold cudnn_benchmark
      rw [if_neg hseed2]
    have hd : cudnn_deterministic (reconcile args base env.gpus_per_node) = true := by
      unfold cudnn_deterministic
      rw [if_neg hseed2]
    have hs : chosenSeed (reconcile args base env.gpus_per_node) env = args.seed := by
      unfold chosenSeed
      rw [if_neg hseed2]
      rfl
    constructor
    · have := setCudnn_mem_successHead (reconcile args base env.gpus_per_node) env
      rw [hb, hd] at this
      exact List.mem_append_left rest this
    · have := fixSeed_mem_successHead (reconcile args base env.gpus_per_node) env
      rw [hs] at this
      exact List.mem_append_left rest this

/-- Witness for C5 at the sentinel seed with a concrete single-accelerator
run. -/
theorem C5_seed_policy_witness :
    Event.setCudnn true false ∈ (mainRun argsT baseW envT (fun _ => true)).1 ∧
    ∃ s, Event.fixSeed s ∈ (mainRun argsT baseW envT (fun _ => true)).1 ∧
      1 ≤ s ∧ s ≤ 4096 :=
  (C5_seed_policy argsT baseW envT (fun _ => true) (by decide) rfl).1 rfl

/-- C6: when synchronized batch normalization is requested and the computed
world size is 1, the run stops at the compatibility check with a
`ConfigError`: the whole trace is the check event, so no dataset preparation,
no spawn and no inline worker occurs. -/
theorem C6_syncbn_world1_fails (args : Args) (base : BaseConfig) (env : Env)
    (f : Nat → Bool) (hm : modeSelected args = true)
    (hsync : args.synchronized_bn = true)
    (hws : env.gpus_per_node * args.total_nodes = 1) :
    mainRun args base env f =
      ([Event.checkCompat (reconcile args base env.gpus_per_node)],
       MainResult.configError ConfigError.syncBnRequiresWorldSizeAboveOne) ∧
    ∀ e ∈ (mainRun args base env f).1,
      isPrepEvt e = false ∧ isSpawnEvt e = false ∧ isInlineEvt e = false := by
  have he : check_compatability (reconcile args base env.gpus_per_node) =
      Except.error ConfigError.syncBnRequiresWorldSizeAboveOne := by
    unfold check_compatability reconcile
    simp [hsync, hws]
  have h := mainRun_error args base env f
    ConfigError.syncBnRequiresWorldSizeAboveOne hm he
  refine ⟨h, ?_⟩
  rw [h]
  intro e hev
  simp at hev
  subst hev
  exact ⟨rfl, rfl, rfl⟩

/-- Witness for C6 at a concrete synchronized-normalization request on a
single-accelerator world. -/
theorem C6_syncbn_world1_fails_witness :
    mainRun argsSync baseW envT (fun _ => true) =
      ([Event.checkCompat (reconcile argsSync baseW envT.gpus_per_node)],
       MainResult.configError ConfigError.syncBnRequiresWorldSizeAboveOne) :=
  (C6_syncbn_world1_fails argsSync baseW envT (fun _ => true)
    (by decide) rfl (by decide)).1

/-- C7: after reconciliation the world size stored in the optimization
section equals exactly the detected accelerator count times the configured
node count, both in the configuration submitted to the compatibility check
and in the configuration every worker receives. -/
theorem C7_world_size_product (args : Args) (base : BaseConfig) (env : Env)
    (f : Nat → Bool) :
    (reconcile args base env.gpus_per_node).OPTIMIZATION.world_size =
      env.gpus_per_node * args.total_nodes ∧
    (∀ c ∈ checkSnapshots (mainRun args base env f).1,
      c.OPTIMIZATION.world_size = env.gpus_per_node * args.total_nodes) ∧
    (∀ w ∈ allWorkerCalls (mainRun args base env f).1,
      w.cfgs.OPTIMIZATION.world_size = env.gpus_per_node * args.total_nodes) := by
  refine ⟨rfl, ?_, ?_⟩
  · intro c hc
    rcases checkSnapshots_mainRun args base env f with h | h <;> rw [h] at hc
    · simp at hc
    · simp at hc
      subst hc
      rfl
  · intro w hw
    rcases allWorkerCalls_mainRun args base env f with h | h | h <;> rw [h] at hw
    · simp at hw
    · rw [(mem_workerCallsOf hw).1, cfgsFinal_OPTIMIZATION]
      rfl
    · simp at hw
      subst hw
      rfl

/-- Witness for C7 at a concrete worker of a single-accelerator run. -/
theorem C7_world_size_product_witness :
    (inlineCall (reconcile argsT baseW envT.gpus_per_node) envT).cfgs.OPTIMIZATION.world_size =
      envT.gpus_per_node * argsT.total_nodes :=
  (C7_world_size_product argsT baseW envT (fun _ => true)).2.2
    (inlineCall (reconcile argsT baseW envT.gpus_per_node) envT) (by decide)

/-- C9: with zero operating-mode flags the program prints the help text and
exits with code 1, and no configuration reconciliation is attempted — the
trace carries no compatibility-check snapshot. -/
theorem C9_no_mode_flag_usage_exit (args : Args) (base : BaseConfig)
    (env : Env) (f : Nat → Bool)
    (h1 : args.train = false) (h2 : args.eval = false)
    (h3 : args.save_fake_images = false) (h4 : args.vis_fake_images = false)
    (h5 : args.k_nearest_neighbor = false) (h6 : args.interpolation = false)
    (h7 : args.frequency_analysis = false) (h8 : args.tsne_analysis = false)
    (h9 : args.intra_class_fid = false) :
    mainRun args base env f = ([Event.printHelp], MainResult.usageExit 1) ∧
    checkSnapshots (mainRun args base env f).1 = [] := by
  have hm : modeSelected args = false := by
    simp [modeSelected, h1, h2, h3, h4, h5, h6, h7, h8, h9]
  refine ⟨mainRun_usage args base env f hm, ?_⟩
  rw [mainRun_usage args base env f hm]
  rfl

/-- Witness for C9 at the default argument record, whose mode flags are all
unset. -/
theorem C9_no_mode_flag_usage_exit_witness :
    mainRun {} baseW envT (fun _ => true) =
      ([Event.printHelp], MainResult.usageExit 1) ∧
    checkSnapshots (mainRun {} baseW envT (fun _ => true)).1 = [] :=
  C9_no_mode_flag_usage_exit {} baseW envT (fun _ => true)
    rfl rfl rfl rfl rfl rfl rfl rfl rfl

/-! ## Ordering infrastructure for the launch/join claims -/

/-- The emitted trace never depends on the workers' outcomes: the outcome
oracle influences only the returned result of the inline branch. -/
theorem mainRun_trace_outcome_free (args : Args) (base : BaseConfig)
    (env : Env) (f g : Nat → Bool) :
    (mainRun args base env f).1 = (mainRun args base env g).1 := by
  by_cases hm : modeSelected args = true
  · rcases he : check_compatability (reconcile args base env.gpus_per_node) with e | u
    · rw [mainRun_error args base env f e hm he,
        mainRun_error args base env g e hm he]
    · cases u
      by_cases hd : ddpMode (reconcile args base env.gpus_per_node) = true
      · rw [mainRun_ddp args base env f hm he hd,
          mainRun_ddp args base env g hm he hd]
      · rw [mainRun_inline args base env f hm he (by simpa using hd),
          mainRun_inline args base env g hm he (by simpa using hd)]
  · have hm2 : modeSelected args = false := by simpa using hm
    rw [mainRun_usage args base env f hm2, mainRun_usage args base env g hm2]

/-- Degenerate ordering: when no event of the trace satisfies `q`, every
`p`-event trivially precedes every `q`-event. -/
theorem lt_of_no_q (t : List Event) (p q : Event → Bool)
    (ha : ∀ e ∈ t, q e = false) :
    ∀ (i j : Nat) (ei ej : Event), t[i]? = some ei → p ei = true →
      t[j]? = some ej → q ej = true → i < j := by
  intro i j ei ej _ _ hj hq
  have hf := ha ej (List.getElem?_mem hj)
  rw [hf] at hq
  exact absurd hq (by simp)

/-- An inline-branch trace contains no spawn and no join event. -/
theorem flags_inline_trace (c : Configuration) (env : Env) (w : WorkerCall) :
    ∀ e ∈ successHead c env ++ [Event.inlineWorker w],
      isSpawnEvt e = false ∧ isJoinEvt e = false := by
  intro e he
  rcases List.mem_append.mp he with h | h
  · exact flags_successHead c env e h
  · simp at h
    subst h
    exact ⟨rfl, rfl⟩

/-- In any post-check trace whose tail carries no further check event, the
line-109 compatibility check precedes every preparation event. -/
theorem check_before_prep_ok (c : Configuration) (env : Env)
    (rest : List Event) (hrest : ∀ e ∈ rest, isCheckEvt e = false) :
    ∀ (i j : Nat) (ei ej : Event),
      (successHead c env ++ rest)[i]? = some ei → isCheckEvt ei = true →
      (successHead c env ++ rest)[j]? = some ej → isPrepEvt ej = true →
      i < j := by
  apply lt_of_split _ [Event.checkCompat c]
    ((hdf5Events c ++ seedEvents c env ++ singleGpuEvents c) ++ rest)
  · simp [successHead]
  · intro e he
    rcases List.mem_append.mp he with h | h
    · exact noCheck_tail c env e h
    · exact hrest e h
  · intro e he
    simp at he
    subst he
    rfl

/-- In the distributed trace, every preparation or filesystem-precondition
event precedes every spawn. -/
theorem prep_before_spawn_ddp (c : Configuration) (env : Env) :
    ∀ (i j : Nat) (ei ej : Event),
      (successHead c env ++ ddpEvents c env)[i]? = some ei →
      isPrepEvt ei = true →
      (successHead c env ++ ddpEvents c env)[j]? = some ej →
      isSpawnEvt ej = true → i < j := by
  apply lt_of_split _ (successHead c env ++ fsPreEvents c)
    (spawnEvents c env ++ joinEvents env)
  · simp [ddpEvents, List.append_assoc]
  · intro e he
    rcases List.mem_append.mp he with h | h
    · exact (flags_spawnEvents c env e h).2.1
    · exact (flags_joinEvents env e h).2.1
  · intro e he
    rcases List.mem_append.mp he with h | h
    · exact (flags_successHead c env e h).1
    · exact (flags_fsPreEvents c e h).1

/-- In the distributed trace, every spawn precedes every join. -/
theorem spawn_before_join_ddp (c : Configuration) (env : Env) :
    ∀ (i j : Nat) (ei ej : Event),
      (successHead c env ++ ddpEvents c env)[i]? = some ei →
      isSpawnEvt ei = true →
      (successHead c env ++ ddpEvents c env)[j]? = some ej →
      isJoinEvt ej = true → i < j := by
  apply lt_of_split _ (successHead c env ++ fsPreEvents c ++ spawnEvents c env)
    (joinEvents env)
  · simp [ddpEvents, List.append_assoc]
  · intro e he
    exact (flags_joinEvents env e he).1
  · intro e he
    rcases List.mem_append.mp he with h | h
    · rcases List.mem_append.mp h with h2 | h2
      · exact (flags_successHead c env e h2).2
      · exact (flags_fsPreEvents c e h2).2.1
    · obtain ⟨w, rfl⟩ := mem_spawnEvents h
      rfl

/-- In the distributed trace, every spawned worker has its join event. -/
theorem join_all_ddp (c : Configuration) (env : Env) (w : WorkerCall)
    (hw : Event.spawn w ∈ successHead c env ++ ddpEvents c env) :
    Event.join w.local_rank ∈ successHead c env ++ ddpEvents c env := by
  rcases List.mem_append.mp hw with h | h
  · have := (flags_successHead c env _ h).1
    simp [isSpawnEvt] at this
  · rcases List.mem_append.mp h with h2 | h2
    · rcases List.mem_append.mp h2 with h3 | h3
      · rcases mem_fsPreEvents h3 with h4 | h4 | h4 <;> simp at h4
      · simp only [spawnEvents, List.mem_map] at h3
        obtain ⟨w2, hw2, heq⟩ := h3
        injection heq with heq2
        subst heq2
        have hlt := (mem_workerCallsOf hw2).2.2.2.2
        refine List.mem_append_right _ (List.mem_append_right _ ?_)
        simp only [joinEvents, List.mem_map]
        exact ⟨w2.local_rank, List.mem_range.mpr hlt, rfl⟩
    · obtain ⟨r, hr⟩ := mem_joinEvents h2
      simp at hr

/-- C4: the compatibility check strictly precedes every dataset-preparation
and filesystem-precondition event; every such event strictly precedes every
worker spawn; every spawn strictly precedes every join; every spawned worker
is joined; and the emitted trace does not depend on the workers' outcomes, so
a failing worker triggers no early abort of the join-all phase. -/
theorem C4_ordering_join_all (args : Args) (base : BaseConfig) (env : Env)
    (f : Nat → Bool) :
    (∀ (i j : Nat) (ei ej : Event),
      (mainRun args base env f).1[i]? = some ei → isCheckEvt ei = true →
      (mainRun args base env f).1[j]? = some ej → isPrepEvt ej = true →
      i < j) ∧
    (∀ (i j : Nat) (ei ej : Event),
      (mainRun args base env f).1[i]? = some ei → isPrepEvt ei = true →
      (mainRun args base env f).1[j]? = some ej → isSpawnEvt ej = true →
      i < j) ∧
    (∀ (i j : Nat) (ei ej : Event),
      (mainRun args base env f).1[i]? = some ei → isSpawnEvt ei = true →
      (mainRun args base env f).1[j]? = some ej → isJoinEvt ej = true →
      i < j) ∧
    (∀ w : WorkerCall, Event.spawn w ∈ (mainRun args base env f).1 →
      Event.join w.local_rank ∈ (mainRun args base env f).1) ∧
    (∀ g : Nat → Bool, (mainRun args base env g).1 = (mainRun args base env f).1) := by
  have houtcome : ∀ g : Nat → Bool,
      (mainRun args base env g).1 = (mainRun args base env f).1 :=
    fun g => mainRun_trace_outcome_free args base env g f
  rcases mainRun_cases args base env f with h | ⟨e, h⟩ | h | h <;> rw [h]
  · refine ⟨?_, ?_, ?_, ?_, by rw [h] at houtcome; exact houtcome⟩
    · exact lt_of_no_q _ _ _ (by intro e he; simp at he; subst he; rfl)
    · exact lt_of_no_q _ _ _ (by intro e he; simp at he; subst he; rfl)
    · exact lt_of_no_q _ _ _ (by intro e he; simp at he; subst he; rfl)
    · intro w hw
      simp at hw
  · refine ⟨?_, ?_, ?_, ?_, by rw [h] at houtcome; exact houtcome⟩
    · exact lt_of_no_q _ _ _ (by intro e2 he; simp at he; subst he; rfl)
    · exact lt_of_no_q _ _ _ (by intro e2 he; simp at he; subst he; rfl)
    · exact lt_of_no_q _ _ _ (by intro e2 he; simp at he; subst he; rfl)
    · intro w hw
      simp at hw
  · refine ⟨?_, ?_, ?_, ?_, by rw [h] at houtcome; exact houtcome⟩
    · exact check_before_prep_ok (reconcile args base env.gpus_per_node) env
        (ddpEvents (reconcile args base env.gpus_per_node) env)
        (noCheck_ddpEvents (reconcile args base env.gpus_per_node) env)
    · exact prep_before_spawn_ddp (reconcile args base env.gpus_per_node) env
    · exact spawn_before_join_ddp (reconcile args base env.gpus_per_node) env
    · exact fun w hw =>
        join_all_ddp (reconcile args base env.gpus_per_node) env w hw
  · refine ⟨?_, ?_, ?_, ?_, by rw [h] at houtcome; exact houtcome⟩
    · refine check_before_prep_ok (reconcile args base env.gpus_per_node) env
        [Event.inlineWorker (inlineCall (reconcile args base env.gpus_per_node) env)] ?_
      intro e2 he
      simp at he
      subst he
      rfl
    · exact lt_of_no_q _ _ _
        (fun e2 he => (flags_inline_trace (reconcile args base env.gpus_per_node)
          env (inlineCall (reconcile args base env.gpus_per_node) env) e2 he).1)
    · exact lt_of_no_q _ _ _
        (fun e2 he => (flags_inline_trace (reconcile args base env.gpus_per_node)
          env (inlineCall (reconcile args base env.gpus_per_node) env) e2 he).2)
    · intro w hw
      have := (flags_inline_trace (reconcile args base env.gpus_per_node) env
        (inlineCall (reconcile args base env.gpus_per_node) env) _ hw).1
      simp [isSpawnEvt] at this

/-- The first distributed worker bundle of the concrete two-accelerator
run. -/
def wD : WorkerCall :=
  { local_rank := 0
    cfgs := cfgsFinal (reconcile argsD baseW envD.gpus_per_node) envD
    gpus_per_node := envD.gpus_per_node
    run_name := runNameOf (reconcile argsD baseW envD.gpus_per_node) envD
    hdf5_path := hdf5_path_of (reconcile argsD baseW envD.gpus_per_node) envD }

/-- Witness for C4: the spawned rank-0 worker of the concrete distributed run
is joined. -/
theorem C4_ordering_join_all_witness :
    Event.join wD.local_rank ∈ (mainRun argsD baseW envD (fun _ => true)).1 :=
  (C4_ordering_join_all argsD baseW envD (fun _ => true)).2.2.2.1 wD (by decide)

/-- C3: in the distributed branch the launcher spawns exactly
`gpus_per_node` workers whose local ranks are exactly `0..gpus_per_node-1`
in order (each exactly once), and all spawned workers receive the same
configuration (hence the same world size), the same `gpus_per_node`
argument, the same run name and the same dataset cache path. -/
theorem C3_fanout_uniform (args : Args) (base : BaseConfig) (env : Env)
    (f : Nat → Bool) (hm : modeSelected args = true)
    (hok : check_compatability (reconcile args base env.gpus_per_node) = Except.ok ())
    (hddp : args.distributed_data_parallel = true)
    (hws : 1 < env.gpus_per_node * args.total_nodes) :
    (spawnedCalls (mainRun args base env f).1).length = env.gpus_per_node ∧
    (spawnedCalls (mainRun args base env f).1).map WorkerCall.local_rank =
      List.range env.gpus_per_node ∧
    (∀ w ∈ spawnedCalls (mainRun args base env f).1,
     ∀ w2 ∈ spawnedCalls (mainRun args base env f).1,
      w.cfgs = w2.cfgs ∧
      w.cfgs.OPTIMIZATION.world_size = w2.cfgs.OPTIMIZATION.world_size ∧
      w.gpus_per_node = w2.gpus_per_node ∧
      w.run_name = w2.run_name ∧ w.hdf5_path = w2.hdf5_path) := by
  have hd : ddpMode (reconcile args base env.gpus_per_node) = true := by
    simp [ddpMode, reconcile, hddp, hws]
  have htr := mainRun_ddp args base env f hm hok hd
  have hsc : spawnedCalls (mainRun args base env f).1 =
      workerCallsOf (reconcile args base env.gpus_per_node) env := by
    rw [htr]
    have h1 := spawnedCalls_successHead (reconcile args base env.gpus_per_node) env
    have h2 := spawnedCalls_ddpEvents (reconcile args base env.gpus_per_node) env
    unfold spawnedCalls at h1 h2 ⊢
    rw [List.filterMap_append, h1, h2]
    rfl
  rw [hsc]
  refine ⟨by simp [workerCallsOf], ?_, ?_⟩
  · rw [workerCallsOf, List.map_map]
    exact List.map_id (List.range env.gpus_per_node)
  · intro w hw w2 hw2
    obtain ⟨ha1, ha2, ha3, ha4, _⟩ := mem_workerCallsOf hw
    obtain ⟨hb1, hb2, hb3, hb4, _⟩ := mem_workerCallsOf hw2
    rw [ha1, ha2, ha3, ha4, hb1, hb2, hb3, hb4]
    exact ⟨rfl, rfl, rfl, rfl, rfl⟩

/-- Witness for C3 at a concrete two-accelerator distributed run. -/
theorem C3_fanout_uniform_witness :
    (spawnedCalls (mainRun argsD baseW envD (fun _ => true)).1).map
      WorkerCall.local_rank = List.range envD.gpus_per_node :=
  (C3_fanout_uniform argsD baseW envD (fun _ => true)
    (by decide) rfl rfl (by decide)).2.1

/-- C8: when distributed mode is not requested, or the world size is 1, the
launcher spawns no process, runs exactly one worker inline with
`local_rank` equal to the current accelerator index read from the host
environment, and its result is that worker's outcome. -/
theorem C8_inline_mode (args : Args) (base : BaseConfig) (env : Env)
    (f : Nat → Bool) (hm : modeSelected args = true)
    (hok : check_compatability (reconcile args base env.gpus_per_node) = Except.ok ())
    (hcond : args.distributed_data_parallel = false ∨
      env.gpus_per_node * args.total_nodes = 1) :
    spawnedCalls (mainRun args base env f).1 = [] ∧
    (∀ e ∈ (mainRun args base env f).1, isSpawnEvt e = false) ∧
    inlineCalls (mainRun args base env f).1 =
      [inlineCall (reconcile args base env.gpus_per_node) env] ∧
    (inlineCall (reconcile args base env.gpus_per_node) env).local_rank = env.rank ∧
    (mainRun args base env f).2 = MainResult.inlineOutcome (f env.rank) := by
  have hd : ddpMode (reconcile args base env.gpus_per_node) = false := by
    rcases hcond with h | h
    · simp [ddpMode, reconcile, h]
    · simp [ddpMode, reconcile, h]
  have htr := mainRun_inline args base env f hm hok hd
  have hs1 := spawnedCalls_successHead (reconcile args base env.gpus_per_node) env
  have hi1 := inlineCalls_successHead (reconcile args base env.gpus_per_node) env
  refine ⟨?_, ?_, ?_, rfl, by rw [htr]⟩
  · rw [htr]
    unfold spawnedCalls at hs1 ⊢
    rw [List.filterMap_append, hs1]
    rfl
  · rw [htr]
    exact fun e he =>
      (flags_inline_trace (reconcile args base env.gpus_per_node) env
        (inlineCall (reconcile args base env.gpus_per_node) env) e he).1
  · rw [htr]
    unfold inlineCalls at hi1 ⊢
    rw [List.filterMap_append, hi1]
    rfl

/-- Witness for C8 at a concrete non-distributed run. -/
theorem C8_inline_mode_witness :
    inlineCalls (mainRun argsT baseW envT (fun _ => true)).1 =
      [inlineCall (reconcile argsT baseW envT.gpus_per_node) envT] ∧
    (mainRun argsT baseW envT (fun _ => true)).2 =
      MainResult.inlineOutcome true :=
  ⟨(C8_inline_mode argsT baseW envT (fun _ => true) (by decide) rfl
      (Or.inl rfl)).2.2.1,
   (C8_inline_mode argsT baseW envT (fun _ => true) (by decide) rfl
      (Or.inl rfl)).2.2.2.2⟩

/-- C10: whatever operating mode was selected, every worker invocation
carries a run name built from the template with the phase tag fixed to the
constant string `train` and the framework tag equal to the last path
component of the configuration file with its final five characters
removed. -/
theorem C10_run_name_tags (args : Args) (base : BaseConfig) (env : Env)
    (f : Nat → Bool) :
    ∀ w ∈ allWorkerCalls (mainRun args base env f).1,
      w.run_name = make_run_name RUN_NAME_FORMAT
        (((pySplit '/' args.cfg_file).getLastD "").dropRight 5) "train"
        env.timestamp := by
  intro w hw
  rcases allWorkerCalls_mainRun args base env f with h | h | h <;> rw [h] at hw
  · simp at hw
  · rw [(mem_workerCallsOf hw).2.2.1]
    rfl
  · simp at hw
    subst hw
    rfl

/-- Witness for C10 at a concrete inline run of the default CIFAR10
configuration file path. -/
theorem C10_run_name_tags_witness :
    (inlineCall (reconcile argsT baseW envT.gpus_per_node) envT).run_name =
      make_run_name RUN_NAME_FORMAT
        (((pySplit '/' argsT.cfg_file).getLastD "").dropRight 5) "train"
        envT.timestamp :=
  C10_run_name_tags argsT baseW envT (fun _ => true)
    (inlineCall (reconcile argsT baseW envT.gpus_per_node) envT) (by decide)

end StudioGAN
